import Mathlib

/-!
Verification of the storage-event webhook services of the hello-chris-rag-pipeline
repository.  The development shallowly embeds the two Flask request handlers:

* `src/apps/s3-event-handler/app.py`, route `POST /` (`handle_s3_event`): decodes
  the inbound body, extracts `(bucket, key, eventName)` from the payload, and
  submits a Kubeflow Pipelines (KFP) run.
* `src/apps/minio-event-bridge/app.py`, route `POST /webhook` (`webhook`): decodes
  a MinIO notification, wraps it in a binary-mode CloudEvent and POSTs it once to
  the broker URL.

JSON payloads are modelled by the inductive `JVal`; the relevant pieces of Python
semantics (dictionary `.get`, the `in` operator, subscription, truthiness,
`TypeError` / `AttributeError` / `KeyError`) are modelled explicitly so that the
embedded functions follow the source line by line.  External collaborators (the
KFP client, the broker) are supplied as explicit oracle parameters.
-/

namespace RagPipeline

/-- JSON values as manipulated by the two services. -/
inductive JVal where
  | null : JVal
  | bool : Bool → JVal
  | num : Int → JVal
  | str : String → JVal
  | arr : List JVal → JVal
  | obj : List (String × JVal) → JVal
deriving Repr

/-- Python exceptions that the embedded fragments can raise. -/
inductive PyErr where
  | typeError : PyErr
  | keyError : PyErr
  | attrError : PyErr
deriving Repr, DecidableEq

/-- Python truthiness (`bool(x)`) of a JSON value. -/
def JVal.truthy : JVal → Bool
  | .null => false
  | .bool b => b
  | .num n => n != 0
  | .str s => s != ""
  | .arr xs => !xs.isEmpty
  | .obj kvs => !kvs.isEmpty

/-- `isinstance(x, dict)`. -/
def JVal.isObj : JVal → Bool
  | .obj _ => true
  | _ => false

/-- Truthiness of an optional value (Python `None` is falsy). -/
def optTruthy : Option JVal → Bool
  | none => false
  | some v => v.truthy

/-- Containment of a character list inside another. -/
def listContains (pat : List Char) : List Char → Bool
  | [] => pat.isEmpty
  | c :: cs => pat.isPrefixOf (c :: cs) || listContains pat cs

/-- Substring containment on strings, the semantics of Python's `needle in s`. -/
def strContains (s pat : String) : Bool :=
  listContains pat.data s.data

/-- Python `d.get(k)`: `None` when the key is missing, `AttributeError` when the
receiver is not a dictionary. -/
def pyGet (v : JVal) (k : String) : Except PyErr (Option JVal) :=
  match v with
  | .obj kvs => .ok (kvs.lookup k)
  | _ => .error .attrError

/-- Python `d.get(k, dflt)`. -/
def pyGetD (v : JVal) (k : String) (dflt : JVal) : Except PyErr JVal :=
  match v with
  | .obj kvs => .ok ((kvs.lookup k).getD dflt)
  | _ => .error .attrError

/-- Python `k in v` for a string `k`: key membership for dictionaries, element
equality for lists, substring search for strings, `TypeError` otherwise. -/
def pyIn (k : String) (v : JVal) : Except PyErr Bool :=
  match v with
  | .obj kvs => .ok (kvs.any (fun p => p.1 == k))
  | .arr xs => .ok (xs.any (fun x => match x with | .str t => t == k | _ => false))
  | .str s => .ok (strContains s k)
  | _ => .error .typeError

/-- Python `v[k]` for a string `k`. -/
def pyIndex (v : JVal) (k : String) : Except PyErr JVal :=
  match v with
  | .obj kvs =>
    match kvs.lookup k with
    | some x => .ok x
    | none => .error .keyError
  | _ => .error .typeError

/-- The normalized `(bucket, key, eventName)` triple extracted by the s3-event
handler.  The fields stay `JVal` because the source performs no type coercion on
the extracted values. -/
structure S3Details where
  bucket : JVal
  key : JVal
  eventName : JVal
deriving Repr

/-- Line 254 of the handler: `if not eventName: eventName = "s3:ObjectCreated:Put"`. -/
def finalizeEventName (ev : Option JVal) : JVal :=
  match ev with
  | some v => if v.truthy then v else .str "s3:ObjectCreated:Put"
  | none => .str "s3:ObjectCreated:Put"

/-- Lines 238-239 of the handler: the record-level event-name fallback, taken
only when the top-level `EventName` was falsy and the record has the key. -/
def recordEventName (record : JVal) (ev0 : Option JVal) : Except PyErr (Option JVal) :=
  if optTruthy ev0 then .ok ev0
  else
    match pyIn "eventName" record with
    | .error e => .error e
    | .ok true => pyGet record "eventName"
    | .ok false => .ok ev0

/-- Lines 236-248 of the handler: the `Records[0]` extraction branch. -/
def extractRecordBranch (record : JVal) (ev0 : Option JVal) : Except PyErr S3Details :=
  match recordEventName record ev0 with
  | .error e => .error e
  | .ok ev1 =>
    match pyGetD record "s3" (.obj []) with
    | .error e => .error e
    | .ok (.obj s3kvs) =>
      let object_info := (s3kvs.lookup "object").getD (.obj [])
      let bucket_info := (s3kvs.lookup "bucket").getD (.obj [])
      let key :=
        match object_info with
        | .obj okvs => (okvs.lookup "key").getD (.str "unknown_key")
        | _ => .str "unknown_key"
      let bucket :=
        match bucket_info with
        | .obj bkvs => (bkvs.lookup "name").getD (.str "unknown_bucket")
        | _ => .str "unknown_bucket"
      .ok ⟨bucket, key, finalizeEventName ev1⟩
    | .ok _ => .ok ⟨.str "unknown_bucket", .str "unknown_key", finalizeEventName ev1⟩

/-- Lines 249-252 of the handler: the top-level `Key` / `Bucket` branch (also
covers the no-match case, where both sentinels survive). -/
def extractKeyBranch (d : JVal) (ev0 : Option JVal) : Except PyErr S3Details :=
  match pyIn "Key" d with
  | .error e => .error e
  | .ok false => .ok ⟨.str "unknown_bucket", .str "unknown_key", finalizeEventName ev0⟩
  | .ok true =>
    match pyGetD d "Key" (.str "unknown_key") with
    | .error e => .error e
    | .ok key =>
      match pyIn "Bucket" d with
      | .error e => .error e
      | .ok false => .ok ⟨.str "unknown_bucket", key, finalizeEventName ev0⟩
      | .ok true =>
        match pyIndex d "Bucket" with
        | .error e => .error e
        | .ok bval =>
          match pyIn "name" bval with
          | .error e => .error e
          | .ok false => .ok ⟨.str "unknown_bucket", key, finalizeEventName ev0⟩
          | .ok true =>
            match pyIndex bval "name" with
            | .error e => .error e
            | .ok bname => .ok ⟨bname, key, finalizeEventName ev0⟩

/-- Lines 230-254 of `src/apps/s3-event-handler/app.py`: extraction of bucket,
object key and event name from the decoded payload, starting from the sentinel
initial values `"unknown_bucket"` / `"unknown_key"`. -/
def extract_s3_details (d : JVal) : Except PyErr S3Details :=
  match pyGet d "EventName" with
  | .error e => .error e
  | .ok ev0 =>
    match pyGet d "Records" with
    | .error e => .error e
    | .ok (some (.arr (record :: _))) => extractRecordBranch record ev0
    | .ok _ => extractKeyBranch d ev0

/-- Scenario A payload: an AWS-style `Records` event. -/
def scenarioA : JVal :=
  .obj [("Records", .arr [
    .obj [("eventName", .str "s3:ObjectCreated:Put"),
          ("s3", .obj [("bucket", .obj [("name", .str "pdf-inbox")]),
                       ("object", .obj [("key", .str "reports/q1.pdf")])])]])]

/-- Scenario B payload: top-level `Key` / `Bucket`. -/
def scenarioB : JVal :=
  .obj [("Key", .str "reports/q1.pdf"), ("Bucket", .str "pdf-inbox")]




/-- A KFP run reference as returned by `kfp_client.run_pipeline`. -/
structure RunInfo where
  id : String
  name : String
deriving Repr, DecidableEq

/-- One call to `kfp_client.run_pipeline` with its arguments. -/
structure RunSubmission where
  experimentId : String
  jobName : String
  pipelineId : String
  params : List (String × JVal)
deriving Repr

/-- Oracle for the external collaborators of the s3-event handler.  `pipelineId`
is the outcome of `get_pipeline_id` (with `none` covering both "not found" and
"lookup raised"), `getExperiment` / `createExperiment` the outcomes of the
experiment lookup and its creation fallback (`none` = the call raised), and
`runPipeline` the outcome of the n-th `run_pipeline` call made against the KFP
API (`none` = the call raised).  Indexing `runPipeline` by the number of
previously submitted runs reflects that each KFP submission creates a fresh run. -/
structure KfpEnv where
  endpointSet : Bool
  clientInitOk : Bool
  pipelineId : Option String
  getExperiment : Option String
  createExperiment : Option String
  runPipeline : Nat → Option RunInfo

/-- The observable outcome of one `POST /` request to the s3-event handler:
HTTP status, the field names of the JSON response body, the list of KFP run
submissions performed, the run reference reported to the caller, and the
`is_pdf` value the handler computed. -/
structure HandlerResult where
  status : Nat
  bodyKeys : List String
  submissions : List RunSubmission
  runRef : Option RunInfo
  isPdf : Bool
deriving Repr

/-- Response-body field names of the explicit `jsonify(\x7b"error": ..., "request_id": ...\x7d)`
returns of the handler (lines 222, 226, 275, 282, 294, 308). -/
def errKeys : List String := ["error", "request_id"]

/-- Response-body field names of the two exception handlers of the handler
(lines 349-354). -/
def excKeys : List String := ["status", "message", "request_id"]

/-- Response-body field names of the success return of the handler (lines 339-347). -/
def successKeys : List String :=
  ["message", "kfp_run_id", "kfp_run_url", "processed_bucket", "processed_key",
   "cloud_event_id_received", "request_id"]

/-- Suffix test on character lists (the semantics of `str.endswith`). -/
def listEndsWith (suffix l : List Char) : Bool :=
  suffix.reverse.isPrefixOf l.reverse

/-- Lines 258-261: `is_pdf = object_key.lower().endswith(".pdf")` guarded by the
key being a truthy string other than the sentinel; computed from the extracted
object key but used for no control decision. -/
def computeIsPdf (key : JVal) : Bool :=
  match key with
  | .str ks => ks != "" && ks != "unknown_key" &&
      listEndsWith ".pdf".data (ks.data.map Char.toLower)
  | _ => false

/-- Line 317: `run_name = f"PDF Event - ..."`; raises `AttributeError` when the
extracted key is not a string. -/
def buildRunName (key : JVal) (requestId : String) : Except PyErr String :=
  match key with
  | .str ks => .ok ("PDF Event - " ++ ks.replace "/" "-" ++ " - " ++ requestId.take 8)
  | _ => .error .attrError

/-- Lines 310-314: the `pipeline_params` dictionary. -/
def buildParams (det : S3Details) (nowIso : String) : List (String × JVal) :=
  [("pdf_s3_bucket", det.bucket), ("pdf_s3_key", det.key),
   ("processing_timestamp", .str nowIso)]

/-- Lines 224-354 of the handler: everything after the decode stage has settled
on an effective event payload `v`.  `ordinal` is the number of runs submitted to
the KFP API before this request (it selects which `runPipeline` outcome the
oracle returns). -/
def handle_core (v : JVal) (env : KfpEnv) (requestId nowIso : String)
    (ordinal : Nat) : HandlerResult :=
  if !(v.truthy && v.isObj) then ⟨400, errKeys, [], none, false⟩
  else
    match extract_s3_details v with
    | .error _ => ⟨500, excKeys, [], none, false⟩
    | .ok det =>
      let is_pdf := computeIsPdf det.key
      if !env.endpointSet then ⟨500, errKeys, [], none, is_pdf⟩
      else if !env.clientInitOk then ⟨500, errKeys, [], none, is_pdf⟩
      else
        match env.pipelineId with
        | none => ⟨404, errKeys, [], none, is_pdf⟩
        | some pid =>
          match (match env.getExperiment with
                 | some e => some e
                 | none => env.createExperiment) with
          | none => ⟨500, errKeys, [], none, is_pdf⟩
          | some expId =>
            match buildRunName det.key requestId with
            | .error _ => ⟨500, excKeys, [], none, is_pdf⟩
            | .ok runName =>
              match env.runPipeline ordinal with
              | none => ⟨500, excKeys, [], none, is_pdf⟩
              | some run =>
                ⟨200, successKeys,
                 [⟨expId, runName, pid, buildParams det nowIso⟩], some run, is_pdf⟩

/-- The decode stage of the handler (lines 204-226), as a variant type: which of
the five body-interpretation branches fired and with what parsed value.
`badJson` stands for a `json.loads` failure in the binary / raw branches. -/
inductive ReqBody where
  | structuredCE : JVal → ReqBody
  | binaryCE : JVal → ReqBody
  | plainJson : JVal → ReqBody
  | rawData : JVal → ReqBody
  | badJson : ReqBody
  | empty : ReqBody

/-- Route `POST /` of `src/apps/s3-event-handler/app.py` (`handle_s3_event`).
The `badJson` arm: the `except json.JSONDecodeError` handler at lines 349-351
would return a 400 JSON body, but its log f-string at line 350 references
`raw_body_sample`, a name defined only inside `before_request_logging_extended`
(line 84); the handler therefore raises `NameError`, the exception escapes the
view function, and Flask serves its default 500 HTML error page — modelled as
status 500 with no JSON body fields at all. -/
def handle_s3_event (req : ReqBody) (env : KfpEnv) (requestId nowIso : String)
    (ordinal : Nat) : HandlerResult :=
  match req with
  | .empty => ⟨400, errKeys, [], none, false⟩
  | .badJson => ⟨500, [], [], none, false⟩
  | .structuredCE payload =>
    match pyGet payload "data" with
    | .error _ => ⟨500, excKeys, [], none, false⟩
    | .ok none => ⟨400, errKeys, [], none, false⟩
    | .ok (some v) => handle_core v env requestId nowIso ordinal
  | .binaryCE v => handle_core v env requestId nowIso ordinal
  | .plainJson v => handle_core v env requestId nowIso ordinal
  | .rawData v => handle_core v env requestId nowIso ordinal

/-- A fully working KFP collaborator whose run ids are distinct per submission,
as the real KFP API produces a fresh run per `run_pipeline` call. -/
def countingEnv : KfpEnv :=
  ⟨true, true, some "pipe-1", some "exp-1", some "exp-1",
   fun n => some ⟨"run-" ++ Nat.repr n, "PDF Event"⟩⟩



/-- CloudEvent attributes built by the bridge (lines 104-123 of
`src/apps/minio-event-bridge/app.py`). -/
structure CEAttributes where
  type : JVal
  source : String
  id : String
  time : String
  datacontenttype : String
  subject : Option JVal
deriving Repr

/-- Outcome of one `requests.post` attempt against the broker: an HTTP response
with a status code, or a transport-level `RequestException`. -/
inductive BrokerOutcome where
  | respond : Nat → BrokerOutcome
  | transportError : BrokerOutcome
deriving Repr

/-- The observable outcome of one `POST /webhook` request to the bridge: HTTP
status, response-body field names, the number of POST attempts made against the
broker, the CloudEvent attributes carried by the attempt, and the broker status
code echoed to the caller. -/
structure BridgeResult where
  status : Nat
  bodyKeys : List String
  posts : Nat
  sent : Option CEAttributes
  brokerStatus : Option Nat
deriving Repr

/-- The decode stage of the bridge (lines 82-90): a parsed JSON body, a
`json.loads` failure, or an empty non-JSON body. -/
inductive BridgeBody where
  | json : JVal → BridgeBody
  | badJson : BridgeBody
  | empty : BridgeBody

/-- Lines 94-100 of the bridge: the CloudEvent `type`, taken verbatim from a
truthy top-level `EventName`, else from a truthy `Records[0].eventName`, else
the default `"io.minio.object.unknown"`. -/
def compute_event_type (v : JVal) : Except PyErr JVal := do
  let dflt : JVal := .str "io.minio.object.unknown"
  let hasEN ← pyIn "EventName" v
  let viaRecords : Except PyErr JVal := do
    let hasR ← pyIn "Records" v
    if hasR then do
      let recs ← pyIndex v "Records"
      match recs with
      | .arr (record :: _) => do
        let hasEv ← pyIn "eventName" record
        if hasEv then do
          let ev ← pyIndex record "eventName"
          if ev.truthy then pure ev else pure dflt
        else pure dflt
      | _ => pure dflt
    else pure dflt
  if hasEN then do
    let en ← pyIndex v "EventName"
    if en.truthy then pure en else viaRecords
  else viaRecords

/-- Lines 113-119 of the bridge: the object key, from a top-level `Key`, else
from `Records[0].s3.object.key`, else `None`. -/
def compute_object_key (v : JVal) : Except PyErr (Option JVal) := do
  let hasKey ← pyIn "Key" v
  if hasKey then do
    let k ← pyIndex v "Key"
    pure (some k)
  else do
    let hasR ← pyIn "Records" v
    if hasR then do
      let recs ← pyIndex v "Records"
      match recs with
      | .arr (record :: _) => do
        let hasS3 ← pyIn "s3" record
        if hasS3 then do
          let s3 ← pyIndex record "s3"
          let hasObj ← pyIn "object" s3
          if hasObj then do
            let obj ← pyIndex s3 "object"
            let hasK ← pyIn "key" obj
            if hasK then do
              let k ← pyIndex obj "key"
              pure (some k)
            else pure none
          else pure none
        else pure none
      | _ => pure none
    else pure none

/-- Line 121 of the bridge: `if object_key: attributes["subject"] = object_key` —
the subject is set only for a truthy extracted key. -/
def subjectOf (okey : Option JVal) : Option JVal :=
  match okey with
  | some k => if k.truthy then some k else none
  | none => none

/-- Response-body field names shared by the bridge's 400/503/500 error returns. -/
def bridgeErrKeys : List String := ["status", "message"]

/-- Response-body field names of the bridge's success return (lines 159-164). -/
def bridgeOkKeys : List String :=
  ["status", "message", "cloud_event_id", "broker_response_status"]

/-- Route `POST /webhook` of `src/apps/minio-event-bridge/app.py` (`webhook`).
`freshId` is the `str(uuid.uuid4())` generated at line 107 and `nowIso` the
timestamp of line 108; `broker` gives the outcome of the n-th POST attempt
against the broker URL. -/
def webhook_post (body : BridgeBody) (freshId nowIso : String)
    (broker : Nat → BrokerOutcome) : BridgeResult :=
  match body with
  | .empty => ⟨400, bridgeErrKeys, 0, none, none⟩
  | .badJson => ⟨400, bridgeErrKeys, 0, none, none⟩
  | .json v =>
    match compute_event_type v with
    | .error _ => ⟨500, bridgeErrKeys, 0, none, none⟩
    | .ok etype =>
      match compute_object_key v with
      | .error _ => ⟨500, bridgeErrKeys, 0, none, none⟩
      | .ok okey =>
        let attrs : CEAttributes :=
          ⟨etype, "urn:minio:s3:::webhook", freshId, nowIso, "application/json",
           subjectOf okey⟩
        match broker 0 with
        | .transportError => ⟨503, bridgeErrKeys, 1, some attrs, none⟩
        | .respond s => ⟨200, bridgeOkKeys, 1, some attrs, some s⟩

/-- The Scenario C broker: 503, 503, 200 on three successive attempts. -/
def scenarioCBroker : Nat → BrokerOutcome :=
  fun n => if n == 0 then .respond 503 else if n == 1 then .respond 503 else .respond 200

/-- A `Records` payload whose record carries no `eventName` key. -/
def scenarioRecordsNoEventName : JVal :=
  .obj [("Records", .arr [
    .obj [("s3", .obj [("bucket", .obj [("name", .str "pdf-inbox")]),
                       ("object", .obj [("key", .str "reports/q1.pdf")])])]])]

/-- A `Records` payload for a non-PDF object and a non-creation event. -/
def scenarioNonPdf : JVal :=
  .obj [("Records", .arr [
    .obj [("eventName", .str "s3:ObjectRemoved:Delete"),
          ("s3", .obj [("bucket", .obj [("name", .str "pdf-inbox")]),
                       ("object", .obj [("key", .str "data/table.csv")])])]])]

/-!
## Helper lemmas
-/

/-- An association list none of whose keys is `k` has no lookup result for `k`. -/
theorem lookup_none_of_no_key (k : String) (kvs : List (String × JVal))
    (h : ∀ p ∈ kvs, p.1 ≠ k) : kvs.lookup k = none := by
  induction kvs with
  | nil => rfl
  | cons p rest ih =>
    obtain ⟨a, b⟩ := p
    have ha : a ≠ k := h (a, b) (List.mem_cons_self _ _)
    have hk : (k == a) = false := beq_eq_false_iff_ne.mpr (Ne.symm ha)
    simp only [List.lookup, hk]
    exact ih fun q hq => h q (List.mem_cons_of_mem _ hq)

/-- An association list none of whose keys is `k` fails the key-membership scan. -/
theorem any_key_false_of_no_key (k : String) (kvs : List (String × JVal))
    (h : ∀ p ∈ kvs, p.1 ≠ k) : (kvs.any fun p => p.1 == k) = false := by
  simp only [List.any_eq_false]
  intro p hp
  simp [h p hp]

/-- The `Key`/`Bucket` branch never changes the event name it was given. -/
theorem extractKeyBranch_eventName (d : JVal) (ev0 : Option JVal) (det : S3Details)
    (hex : extractKeyBranch d ev0 = .ok det) :
    det.eventName = finalizeEventName ev0 := by
  unfold extractKeyBranch at hex
  repeat' split at hex
  all_goals first
    | exact Except.noConfusion hex
    | (injection hex with h; rw [← h])

/-- The `Records[0]` branch takes the default event name when the top-level
`EventName` is absent and the record has no `eventName` key. -/
theorem extractRecordBranch_eventName_default (record : JVal) (det : S3Details)
    (hev : pyIn "eventName" record = .ok false)
    (hex : extractRecordBranch record none = .ok det) :
    det.eventName = .str "s3:ObjectCreated:Put" := by
  unfold extractRecordBranch recordEventName at hex
  simp only [optTruthy, Bool.false_eq_true, if_false, hev] at hex
  repeat' split at hex
  all_goals first
    | exact Except.noConfusion hex
    | (injection hex with h; rw [← h]; rfl)

/-- Outcome of the handler core on a truthy dictionary payload when the KFP
collaborator resolves the pipeline, the experiment and the run submission. -/
theorem handle_core_success (v : JVal) (det : S3Details) (ks pid expId : String)
    (run : RunInfo) (env : KfpEnv) (rid now : String) (n : Nat)
    (hv : v.truthy = true) (hobj : v.isObj = true)
    (hex : extract_s3_details v = .ok det) (hks : det.key = .str ks)
    (hep : env.endpointSet = true) (hcl : env.clientInitOk = true)
    (hpid : env.pipelineId = some pid) (hexp : env.getExperiment = some expId)
    (hrun : env.runPipeline n = some run) :
    handle_core v env rid now n =
      ⟨200, successKeys,
       [⟨expId, "PDF Event - " ++ ks.replace "/" "-" ++ " - " ++ rid.take 8, pid,
         buildParams det now⟩], some run, computeIsPdf det.key⟩ := by
  unfold handle_core
  rw [hv, hobj, hex, hep, hcl, hpid, hexp]
  simp [hks, buildRunName, hrun, computeIsPdf]

/-!
## Claim theorems
-/

/-- C8: on the Scenario A payload
`\x7b"Records":[\x7b"eventName":"s3:ObjectCreated:Put","s3":...\x7d]\x7d` the handler
extracts bucket `pdf-inbox`, object key `reports/q1.pdf` and event name
`s3:ObjectCreated:Put`. -/
theorem c8_scenarioA_normalization :
    extract_s3_details scenarioA =
      .ok ⟨.str "pdf-inbox", .str "reports/q1.pdf", .str "s3:ObjectCreated:Put"⟩ := rfl

/-- C5 counterexample: on the exact Scenario B input the code leaves the bucket
sentinel in place — `'name' in minio_event_data['Bucket']` is a substring test on
the string `"pdf-inbox"` and fails — so normalization does not produce
`bucket = "pdf-inbox"` as the claim states. -/
theorem c5_counterexample :
    extract_s3_details scenarioB =
      .ok ⟨.str "unknown_bucket", .str "reports/q1.pdf", .str "s3:ObjectCreated:Put"⟩ ∧
    JVal.str "unknown_bucket" ≠ JVal.str "pdf-inbox" := by
  refine ⟨rfl, fun h => ?_⟩
  simp at h

/-- C5 amended: with `data.Key` present, the object key is taken from `Key`, but
the bucket is extracted only when the top-level `Bucket` value itself contains a
`name` member (e.g. `\x7b"Bucket":\x7b"name":...\x7d\x7d`); a plain string `Bucket` — and any
lower-case `bucket` field — is ignored and the sentinel `unknown_bucket` survives. -/
theorem c5_bucket_needs_name_member (k b : String) :
    extract_s3_details (.obj [("Key", .str k), ("Bucket", .obj [("name", .str b)])]) =
      .ok ⟨.str b, .str k, .str "s3:ObjectCreated:Put"⟩ := rfl

/-- C7 counterexample: a payload with no event-name field gets the default
`"s3:ObjectCreated:Put"`, not the claimed `"ObjectCreated:Unknown"`. -/
theorem c7_counterexample :
    extract_s3_details (.obj [("Key", .str "reports/q1.pdf")]) =
      .ok ⟨.str "unknown_bucket", .str "reports/q1.pdf", .str "s3:ObjectCreated:Put"⟩ ∧
    JVal.str "s3:ObjectCreated:Put" ≠ JVal.str "ObjectCreated:Unknown" := by
  refine ⟨rfl, fun h => ?_⟩
  simp at h

/-- C7 amended: for every successfully normalized dictionary payload in which no
shape-specific event name field exists — no top-level `EventName`, and no
`eventName` key in `Records[0]` whenever a `Records` list is matched — the
resulting event name is exactly the default `"s3:ObjectCreated:Put"`. -/
theorem c7_default_event_name (kvs : List (String × JVal)) (det : S3Details)
    (hE : ∀ p ∈ kvs, p.1 ≠ "EventName")
    (hRec : ∀ record rest, kvs.lookup "Records" = some (.arr (record :: rest)) →
      pyIn "eventName" record = .ok false)
    (hex : extract_s3_details (.obj kvs) = .ok det) :
    det.eventName = .str "s3:ObjectCreated:Put" := by
  have hEn := lookup_none_of_no_key "EventName" kvs hE
  simp only [extract_s3_details, pyGet, hEn] at hex
  cases hL : kvs.lookup "Records" with
  | none =>
    rw [hL] at hex
    exact extractKeyBranch_eventName _ _ _ hex
  | some v =>
    rw [hL] at hex
    cases v <;> try exact extractKeyBranch_eventName _ _ _ hex
    rename_i xs
    cases xs with
    | nil => exact extractKeyBranch_eventName _ _ _ hex
    | cons record rest =>
      exact extractRecordBranch_eventName_default record det (hRec record rest hL) hex

/-- C7 witness: a `Records` payload whose record has no `eventName` key
normalizes successfully and receives the default event name (the no-`Records`
case is covered by `\x7b"Key":"reports/q1.pdf"\x7d`-style payloads as well). -/
theorem c7_witness :
    ∃ det, extract_s3_details scenarioRecordsNoEventName = .ok det ∧
      det.eventName = .str "s3:ObjectCreated:Put" := by
  refine ⟨⟨.str "pdf-inbox", .str "reports/q1.pdf", .str "s3:ObjectCreated:Put"⟩,
    rfl, ?_⟩
  refine c7_default_event_name
    [("Records", .arr [
      .obj [("s3", .obj [("bucket", .obj [("name", .str "pdf-inbox")]),
                         ("object", .obj [("key", .str "reports/q1.pdf")])])]])]
    _ (by decide) ?_ rfl
  intro record rest h
  have h2 := Option.some.inj h
  injection h2 with h3
  injection h3 with h4 h5
  rw [← h4]
  rfl

/-- C1 counterexample: the payload `\x7b"foo":"bar"\x7d` matches no supported shape,
yet normalization succeeds with the sentinel placeholders `unknown_bucket` /
`unknown_key`, and the request is answered 200 (with a pipeline run triggered),
not 400. -/
theorem c1_counterexample :
    extract_s3_details (.obj [("foo", .str "bar")]) =
      .ok ⟨.str "unknown_bucket", .str "unknown_key", .str "s3:ObjectCreated:Put"⟩ ∧
    (handle_s3_event (.plainJson (.obj [("foo", .str "bar")])) countingEnv "rid-1"
        "2026-01-01T00:00:00Z" 0).status = 200 := ⟨rfl, rfl⟩

/-- C1 amended: for every dictionary payload with neither a `Records` nor a
top-level `Key` field, normalization does not fail — it succeeds with the
sentinel placeholders `"unknown_bucket"` and `"unknown_key"` (and the handler
proceeds to trigger a pipeline run rather than answering 400). -/
theorem c1_sentinels_on_unmatched_shape (kvs : List (String × JVal))
    (h : ∀ p ∈ kvs, p.1 ≠ "Records" ∧ p.1 ≠ "Key") :
    extract_s3_details (.obj kvs) =
      .ok ⟨.str "unknown_bucket", .str "unknown_key",
           finalizeEventName (kvs.lookup "EventName")⟩ := by
  have hR := lookup_none_of_no_key "Records" kvs fun p hp => (h p hp).1
  have hK := any_key_false_of_no_key "Key" kvs fun p hp => (h p hp).2
  simp only [extract_s3_details, pyGet, hR]
  simp only [extractKeyBranch, pyIn, hK]

/-- C1 witness: the amended statement instantiated at `\x7b"foo":"bar"\x7d`. -/
theorem c1_witness :
    extract_s3_details (.obj [("foo", .str "bar")]) =
      .ok ⟨.str "unknown_bucket", .str "unknown_key", .str "s3:ObjectCreated:Put"⟩ :=
  c1_sentinels_on_unmatched_shape [("foo", .str "bar")] (by decide)

/-- C2 counterexample: two deliveries of the same CloudEvent (same correlation
id) are each dispatched afresh — two `run_pipeline` submissions in total and two
distinct run references — because the handler keeps no dedup map. -/
theorem c2_counterexample :
    (handle_s3_event (.binaryCE scenarioA) countingEnv "rid-1" "t0" 0).submissions.length
      + (handle_s3_event (.binaryCE scenarioA) countingEnv "rid-2" "t0"
          (handle_s3_event (.binaryCE scenarioA) countingEnv "rid-1" "t0"
            0).submissions.length).submissions.length = 2 ∧
    (handle_s3_event (.binaryCE scenarioA) countingEnv "rid-1" "t0" 0).runRef ≠
      (handle_s3_event (.binaryCE scenarioA) countingEnv "rid-2" "t0" 1).runRef :=
  ⟨rfl, by decide⟩

/-- C2 amended: the handler maintains no dedup state at all — every request that
reaches the KFP stage submits its own fresh run, so a second call with the same
notification and correlation id performs a second downstream run-submission (two
in total). -/
theorem c2_no_dedup (v : JVal) (det : S3Details) (ks pid expId : String)
    (run : Nat → RunInfo) (env : KfpEnv) (rid1 rid2 now : String)
    (hv : v.truthy = true) (hobj : v.isObj = true)
    (hex : extract_s3_details v = .ok det) (hks : det.key = .str ks)
    (hep : env.endpointSet = true) (hcl : env.clientInitOk = true)
    (hpid : env.pipelineId = some pid) (hexp : env.getExperiment = some expId)
    (hrun : ∀ j, env.runPipeline j = some (run j)) :
    (handle_s3_event (.binaryCE v) env rid1 now 0).submissions.length
      + (handle_s3_event (.binaryCE v) env rid2 now
          (handle_s3_event (.binaryCE v) env rid1 now 0).submissions.length).submissions.length
      = 2 := by
  have e1 : (handle_s3_event (.binaryCE v) env rid1 now 0).submissions.length = 1 := by
    show (handle_core v env rid1 now 0).submissions.length = 1
    rw [handle_core_success v det ks pid expId (run 0) env rid1 now 0
          hv hobj hex hks hep hcl hpid hexp (hrun 0)]
    rfl
  have e2 : (handle_s3_event (.binaryCE v) env rid2 now 1).submissions.length = 1 := by
    show (handle_core v env rid2 now 1).submissions.length = 1
    rw [handle_core_success v det ks pid expId (run 1) env rid2 now 1
          hv hobj hex hks hep hcl hpid hexp (hrun 1)]
    rfl
  rw [e1, e2]

/-- C2 witness: the amended statement instantiated on Scenario A with a healthy
KFP collaborator. -/
theorem c2_witness :
    (handle_s3_event (.binaryCE scenarioA) countingEnv "rid-a" "t0" 0).submissions.length
      + (handle_s3_event (.binaryCE scenarioA) countingEnv "rid-b" "t0"
          (handle_s3_event (.binaryCE scenarioA) countingEnv "rid-a" "t0"
            0).submissions.length).submissions.length = 2 :=
  c2_no_dedup scenarioA
    ⟨.str "pdf-inbox", .str "reports/q1.pdf", .str "s3:ObjectCreated:Put"⟩
    "reports/q1.pdf" "pipe-1" "exp-1"
    (fun j => ⟨"run-" ++ Nat.repr j, "PDF Event"⟩) countingEnv "rid-a" "rid-b" "t0"
    rfl rfl rfl rfl rfl rfl rfl rfl (fun _ => rfl)

/-- C10: once the payload decodes to a truthy dictionary and the KFP
collaborator is healthy, the handler submits exactly one pipeline run and
answers 200 — with no hypothesis on the object key ending in `.pdf` nor on the
event name: `is_pdf` is computed but filters nothing. -/
theorem c10_unconditional_dispatch (v : JVal) (det : S3Details)
    (ks pid expId : String) (run : RunInfo) (env : KfpEnv) (rid now : String) (n : Nat)
    (hv : v.truthy = true) (hobj : v.isObj = true)
    (hex : extract_s3_details v = .ok det) (hks : det.key = .str ks)
    (hep : env.endpointSet = true) (hcl : env.clientInitOk = true)
    (hpid : env.pipelineId = some pid) (hexp : env.getExperiment = some expId)
    (hrun : env.runPipeline n = some run) :
    (handle_s3_event (.binaryCE v) env rid now n).status = 200 ∧
    (handle_s3_event (.binaryCE v) env rid now n).submissions.length = 1 ∧
    (handle_s3_event (.binaryCE v) env rid now n).isPdf =
      (ks != "" && ks != "unknown_key" &&
        listEndsWith ".pdf".data (ks.data.map Char.toLower)) := by
  have h := handle_core_success v det ks pid expId run env rid now n
    hv hobj hex hks hep hcl hpid hexp hrun
  refine ⟨?_, ?_, ?_⟩
  · show (handle_core v env rid now n).status = 200
    rw [h]
  · show (handle_core v env rid now n).submissions.length = 1
    rw [h]
    rfl
  · show (handle_core v env rid now n).isPdf = _
    rw [h, hks]
    rfl

/-- C10 witness: a deletion event for a CSV object — not a PDF, not an
ObjectCreated event — still triggers exactly one pipeline run with a 200. -/
theorem c10_witness :
    (handle_s3_event (.binaryCE scenarioNonPdf) countingEnv "rid-1" "t0" 0).status = 200 ∧
    (handle_s3_event (.binaryCE scenarioNonPdf) countingEnv "rid-1" "t0" 0).submissions.length = 1 ∧
    (handle_s3_event (.binaryCE scenarioNonPdf) countingEnv "rid-1" "t0" 0).isPdf = false := by
  obtain ⟨h1, h2, h3⟩ := c10_unconditional_dispatch scenarioNonPdf
    ⟨.str "pdf-inbox", .str "data/table.csv", .str "s3:ObjectRemoved:Delete"⟩
    "data/table.csv" "pipe-1" "exp-1" ⟨"run-0", "PDF Event"⟩ countingEnv "rid-1" "t0" 0
    rfl rfl rfl rfl rfl rfl rfl rfl rfl
  refine ⟨h1, h2, ?_⟩
  rw [h3]
  decide

/-- C3 counterexample: with the Scenario C broker (503, 503, 200 on successive
attempts) the bridge performs exactly one POST — the first 503 is never retried;
instead of "success with attempts = 3" the caller gets a 200 response reporting
broker status 503. -/
theorem c3_counterexample :
    (webhook_post (.json scenarioA) "ce-1" "t0" scenarioCBroker).posts = 1 ∧
    (webhook_post (.json scenarioA) "ce-1" "t0" scenarioCBroker).posts ≠ 3 ∧
    (webhook_post (.json scenarioA) "ce-1" "t0" scenarioCBroker).brokerStatus = some 503 ∧
    (webhook_post (.json scenarioA) "ce-1" "t0" scenarioCBroker).status = 200 :=
  ⟨rfl, by decide, rfl, rfl⟩

/-- C3 amended: the bridge has no retry loop at all — every webhook request
performs at most one POST to the broker, whatever the broker's responses are
(transport errors included); a 5xx answer is reported inside a 200 response
rather than retried. -/
theorem c3_at_most_one_post (body : BridgeBody) (f t : String)
    (broker : Nat → BrokerOutcome) :
    (webhook_post body f t broker).posts ≤ 1 := by
  unfold webhook_post
  repeat' split
  all_goals simp

/-- C6 counterexample: the CloudEvent the bridge sends for a keyed payload has
source `urn:minio:s3:::webhook` (not `urn:storage:webhook`) and default type
`io.minio.object.unknown` (not `io.storage.object.unknown`). -/
theorem c6_counterexample :
    (webhook_post (.json (.obj [("Key", .str "reports/q1.pdf")])) "ce-1" "t0"
        (fun _ => .respond 202)).sent =
      some ⟨.str "io.minio.object.unknown", "urn:minio:s3:::webhook", "ce-1", "t0",
            "application/json", some (.str "reports/q1.pdf")⟩ ∧
    "urn:minio:s3:::webhook" ≠ "urn:storage:webhook" ∧
    "io.minio.object.unknown" ≠ "io.storage.object.unknown" :=
  ⟨rfl, by decide, by decide⟩

/-- C6 amended: every CloudEvent the bridge builds carries
source `urn:minio:s3:::webhook`, a freshly generated uuid as id (not any caller
supplied correlation id), `datacontenttype = application/json`, type equal to the
payload event name verbatim (default `io.minio.object.unknown` — there is no
configured mapping), and subject equal to the extracted object key when truthy. -/
theorem c6_cloudevent_attributes (v : JVal) (f t : String)
    (broker : Nat → BrokerOutcome) (etype : JVal) (okey : Option JVal)
    (a : CEAttributes)
    (het : compute_event_type v = .ok etype) (hok : compute_object_key v = .ok okey)
    (hsent : (webhook_post (.json v) f t broker).sent = some a) :
    a.source = "urn:minio:s3:::webhook" ∧ a.id = f ∧ a.time = t ∧
    a.datacontenttype = "application/json" ∧ a.type = etype ∧
    a.subject = subjectOf okey := by
  rcases hb : broker 0 with s | _ <;>
    · simp [webhook_post, het, hok, hb] at hsent
      exact hsent ▸ ⟨rfl, rfl, rfl, rfl, rfl, rfl⟩

/-- C6 witness: the attribute facts instantiated on the keyed payload. -/
theorem c6_witness :
    (⟨.str "io.minio.object.unknown", "urn:minio:s3:::webhook", "ce-1", "t0",
       "application/json", some (.str "reports/q1.pdf")⟩ : CEAttributes).source =
        "urn:minio:s3:::webhook" ∧
    (⟨.str "io.minio.object.unknown", "urn:minio:s3:::webhook", "ce-1", "t0",
       "application/json", some (.str "reports/q1.pdf")⟩ : CEAttributes).id = "ce-1" ∧
    (⟨.str "io.minio.object.unknown", "urn:minio:s3:::webhook", "ce-1", "t0",
       "application/json", some (.str "reports/q1.pdf")⟩ : CEAttributes).time = "t0" ∧
    (⟨.str "io.minio.object.unknown", "urn:minio:s3:::webhook", "ce-1", "t0",
       "application/json", some (.str "reports/q1.pdf")⟩ : CEAttributes).datacontenttype =
        "application/json" ∧
    (⟨.str "io.minio.object.unknown", "urn:minio:s3:::webhook", "ce-1", "t0",
       "application/json", some (.str "reports/q1.pdf")⟩ : CEAttributes).type =
        .str "io.minio.object.unknown" ∧
    (⟨.str "io.minio.object.unknown", "urn:minio:s3:::webhook", "ce-1", "t0",
       "application/json", some (.str "reports/q1.pdf")⟩ : CEAttributes).subject =
        subjectOf (some (.str "reports/q1.pdf")) :=
  c6_cloudevent_attributes (.obj [("Key", .str "reports/q1.pdf")]) "ce-1" "t0"
    (fun _ => .respond 202) (.str "io.minio.object.unknown")
    (some (.str "reports/q1.pdf")) _ rfl rfl rfl

/-- C9 counterexample: the bridge's success response body has exactly the fields
status, message, cloud_event_id and broker_response_status — no request id under
either spelling — so not every response carries a requestId as claimed. -/
theorem c9_counterexample :
    (webhook_post (.json scenarioA) "ce-1" "t0" (fun _ => .respond 202)).bodyKeys =
      ["status", "message", "cloud_event_id", "broker_response_status"] ∧
    "requestId" ∉ (webhook_post (.json scenarioA) "ce-1" "t0"
        (fun _ => .respond 202)).bodyKeys ∧
    "request_id" ∉ (webhook_post (.json scenarioA) "ce-1" "t0"
        (fun _ => .respond 202)).bodyKeys :=
  ⟨rfl, by decide, by decide⟩

/-- C9 amended: every bridge webhook response body carries `status` and
`message` but never a request id; every s3-event-handler response body carries
`request_id` except on the malformed-JSON path, where the `JSONDecodeError`
handler itself crashes on the undefined `raw_body_sample` (line 350) and Flask
serves its default 500 HTML error page with no JSON fields at all (the handler's
explicit error bodies use an `error` field rather than `status`/`message`). -/
theorem c9_response_body_fields (body : BridgeBody) (f t : String)
    (broker : Nat → BrokerOutcome) (req : ReqBody) (env : KfpEnv)
    (rid now : String) (n : Nat) :
    ("status" ∈ (webhook_post body f t broker).bodyKeys ∧
     "message" ∈ (webhook_post body f t broker).bodyKeys ∧
     "requestId" ∉ (webhook_post body f t broker).bodyKeys) ∧
    (req ≠ .badJson → "request_id" ∈ (handle_s3_event req env rid now n).bodyKeys) ∧
    (handle_s3_event .badJson env rid now n).bodyKeys = [] := by
  refine ⟨?_, ?_, rfl⟩
  · unfold webhook_post
    repeat' split
    all_goals simp [bridgeErrKeys, bridgeOkKeys]
  · intro hreq
    unfold handle_s3_event handle_core
    repeat' split
    all_goals first
      | exact absurd rfl hreq
      | simp [errKeys, excKeys, successKeys]

/-- C9 witness: the amended statement applied to a binary CloudEvent delivery,
discharging the non-bad-JSON hypothesis. -/
theorem c9_witness :
    "request_id" ∈
      (handle_s3_event (.binaryCE scenarioA) countingEnv "rid-1" "t0" 0).bodyKeys :=
  (c9_response_body_fields (.json scenarioA) "ce-1" "t0" (fun _ => .respond 202)
      (.binaryCE scenarioA) countingEnv "rid-1" "t0" 0).2.1 (fun h => nomatch h)

end RagPipeline
